import Mathlib

/-!
# cRenderer: the frame pipeline of `src/main.c`

A shallow embedding of `main.c` (setup, process_input, the two projectors,
update, render, main) and of the `plane_t` record of `headers/clipping.h`.

Conventions of the embedding.

* The two projectors are modelled in binary32 arithmetic (`f32`): finite
  values, signed zeros, infinities and NaN, every operation rounded to nearest
  with ties to even and overflowing to infinity, each float expression
  evaluated in its own format.
* The frame pipeline (`update`, `render`, `main`) is stated over exact
  rationals (`ℚ`) for finite coordinates, with the literal `0.01` read as
  `1/100`; it calls `perspectiveProject_exact`, the projector without
  rounding, which agrees with `perspectiveProject` wherever the products and
  quotients are binary32 values.
* C `int` values are `Int`; the one place where unsigned 32-bit arithmetic
  matters (frame pacing) reduces modulo `2^32` explicitly.
* The global variables of the program are the fields of `State`.
* Reading `mesh.vertices[k]` outside the vertex sequence has no defined
  behaviour in C; the embedding returns `none` there.
* Calls into the display / SDL layer are recorded, in order, as a list of
  `Call` values.
* Code of the repository that `main.c` uses but that is not part of the
  sources at hand (`vector.h`, `array.h`, `display.h`, `mesh.h`) is either a
  field of `Env` or a definition marked as modelled from the specification.
-/

namespace CRenderer

/-! ## Data model -/

/-- The `vec2_t` of `vector.h` in the frame pipeline: a pair of finite
coordinates, as exact rationals. -/
structure vec2_t where
  x : ℚ
  y : ℚ
deriving DecidableEq, Repr

/-- The `vec3_t` of `vector.h` in the frame pipeline: a triple of finite
coordinates, as exact rationals. -/
structure vec3_t where
  x : ℚ
  y : ℚ
  z : ℚ
deriving DecidableEq, Repr

/-- The `face_t` of the mesh model: three 1-based indices (C `int`) into the
vertex sequence. -/
structure face_t where
  a : Int
  b : Int
  c : Int
deriving DecidableEq, Repr

/-- A C array of exactly three elements (`face_vertices[3]`, `points[3]`). -/
structure Array3 (α : Type) where
  e0 : α
  e1 : α
  e2 : α
deriving DecidableEq, Repr

/-- Apply `f` to the elements with index 0, 1, 2, in that order: the loop
`for (j = 0; j < 3; j++) out[j] = f(in[j]);`. -/
def Array3.map {α β : Type} (f : α → β) (v : Array3 α) : Array3 β :=
  { e0 := f v.e0, e1 := f v.e1, e2 := f v.e2 }

/-- The `triangle_t` used by `update` and `render`: three screen points. -/
structure triangle_t where
  points : Array3 vec2_t
deriving DecidableEq, Repr

/-- The global `mesh`: vertex sequence, face sequence, rotation state. -/
structure mesh_t where
  vertices : List vec3_t
  faces : List face_t
  rotation : vec3_t
deriving DecidableEq, Repr

/-- The `plane_t` of `clipping.h`: a point of the plane and a normal. -/
structure plane_t where
  point : vec3_t
  normal : vec3_t
deriving DecidableEq, Repr

/-- The anonymous enum of `clipping.h`, in declaration order. -/
inductive FrustumPlane where
  | LEFT_FRUSTUM_PLANE
  | RIGHT_FRUSTUM_PLANE
  | TOP_FRUSTUM_PLANE
  | BOTTOM_FRUSTUM_PLANE
  | NEAR_FRUSTUM_PLANE
  | FAR_FRUSTUM_PLANE
deriving DecidableEq, Repr

/-- Modelled from the spec: the half-space test of a plane, which no source
file at hand defines.  A point `p` is inside when
`dot(p - plane.point, plane.normal) > 0`. -/
def plane_inside (pl : plane_t) (p : vec3_t) : Prop :=
  0 < (p.x - pl.point.x) * pl.normal.x + (p.y - pl.point.y) * pl.normal.y
        + (p.z - pl.point.z) * pl.normal.z

instance (pl : plane_t) (p : vec3_t) : Decidable (plane_inside pl p) := by
  unfold plane_inside; infer_instance

/-- Modelled from the spec: the near plane for near distance `z_near`, what
`init_frustum_planes` (declared in `clipping.h`, defined nowhere in the
sources at hand) is to store at `NEAR_FRUSTUM_PLANE`: the point
`(0, 0, z_near)` with the inward normal `(0, 0, 1)`. -/
def near_plane (z_near : ℚ) : plane_t :=
  { point := ⟨0, 0, z_near⟩, normal := ⟨0, 0, 1⟩ }

/-! ## Global constants of `main.c` -/

/-- `vec3_t camera_position = {.x = 0, .y = 0, .z = -5};` (never assigned
again in `main.c`). -/
def camera_position : vec3_t := ⟨0, 0, -5⟩

/-- `float fov_factor = 640;` (never assigned again in `main.c`); 640 is a
binary32 value. -/
def fov_factor : ℚ := 640

/-! ## binary32 arithmetic -/

/-- A C `float` (IEEE-754 binary32): a finite value (`fin 0` is `+0`), the
negative zero, an infinity with its sign, or a NaN. -/
inductive f32 where
  | fin (q : ℚ)
  | neg_zero
  | inf (neg : Bool)
  | nan
deriving DecidableEq, Repr

/-- The sign bit of a float (false for a NaN, whose sign is not used). -/
def f32.sign : f32 → Bool
  | f32.fin q => decide (q < 0)
  | f32.neg_zero => true
  | f32.inf neg => neg
  | f32.nan => false

/-- The rational value of a finite float; `none` for infinities and NaN. -/
def f32.toRat? : f32 → Option ℚ
  | f32.fin q => some q
  | f32.neg_zero => some 0
  | f32.inf _ => none
  | f32.nan => none

/-- The zero with the given sign bit. -/
def signed_zero (neg : Bool) : f32 :=
  if neg then f32.neg_zero else f32.fin 0

/-- Rounding of a rational to the nearest integer, ties to the even one. -/
def round_half_even (q : ℚ) : Int :=
  if q - (⌊q⌋ : ℚ) < 1 / 2 then ⌊q⌋
  else if 1 / 2 < q - (⌊q⌋ : ℚ) then ⌊q⌋ + 1
  else if ⌊q⌋ % 2 = 0 then ⌊q⌋ else ⌊q⌋ + 1

/-- The exponent of the unit in the last place for a result of magnitude
`|q|`: 24 significant bits, and never below `2^-149`, the least subnormal. -/
def f32_exponent (q : ℚ) : Int :=
  max (Int.log 2 |q| - 23) (-149)

/-- Rounding of an exact nonzero result `q` to binary32, to nearest with ties
to even: a magnitude that rounds to `2^128` or more overflows to the infinity
of the sign of `q`, one that rounds to zero gives the zero of that sign. -/
def round_f32 (q : ℚ) : f32 :=
  if (2 : ℚ) ^ (128 : Int)
      ≤ |(round_half_even (q / 2 ^ f32_exponent q) : ℚ) * 2 ^ f32_exponent q| then
    f32.inf (decide (q < 0))
  else if (round_half_even (q / 2 ^ f32_exponent q) : ℚ) * 2 ^ f32_exponent q = 0 then
    signed_zero (decide (q < 0))
  else f32.fin ((round_half_even (q / 2 ^ f32_exponent q) : ℚ) * 2 ^ f32_exponent q)

/-- The C expression `a * b` on floats. -/
def f32_mul (a b : f32) : f32 :=
  match a.toRat?, b.toRat? with
  | some x, some y =>
    if x * y = 0 then signed_zero (xor a.sign b.sign) else round_f32 (x * y)
  | _, _ =>
    if a = f32.nan ∨ b = f32.nan ∨ a.toRat? = some 0 ∨ b.toRat? = some 0 then f32.nan
    else f32.inf (xor a.sign b.sign)

/-- The C expression `a / b` on floats. -/
def f32_div (a b : f32) : f32 :=
  match a.toRat?, b.toRat? with
  | some x, some y =>
    if y = 0 then (if x = 0 then f32.nan else f32.inf (xor a.sign b.sign))
    else if x = 0 then signed_zero (xor a.sign b.sign)
    else round_f32 (x / y)
  | some _, none => if b = f32.nan then f32.nan else signed_zero (xor a.sign b.sign)
  | none, some _ => if a = f32.nan then f32.nan else f32.inf (xor a.sign b.sign)
  | none, none => f32.nan

/-- The rational `q` is a finite binary32 value: an integer of fewer than 25
bits times a power of two between `2^-149` and `2^104`. -/
def is_f32 (q : ℚ) : Prop :=
  ∃ m e : Int, |m| < 2 ^ 24 ∧ -149 ≤ e ∧ e ≤ 104 ∧ q = (m : ℚ) * 2 ^ e

/-- The `vec2_t` of `vector.h` with its float coordinates. -/
structure vec2_f32 where
  x : f32
  y : f32
deriving DecidableEq, Repr

/-- The `vec3_t` of `vector.h` with its float coordinates. -/
structure vec3_f32 where
  x : f32
  y : f32
  z : f32
deriving DecidableEq, Repr

/-! ## The projectors -/

/-- `orthographicProject` of `main.c`. -/
def orthographicProject (point : vec3_f32) : vec2_f32 :=
  { x := f32_mul (f32.fin fov_factor) point.x,
    y := f32_mul (f32.fin fov_factor) point.y }

/-- `perspectiveProject` of `main.c`: a float product, then a float division.
No test on `point.z` is made. -/
def perspectiveProject (point : vec3_f32) : vec2_f32 :=
  { x := f32_div (f32_mul (f32.fin fov_factor) point.x) point.z,
    y := f32_div (f32_mul (f32.fin fov_factor) point.y) point.z }

/-- The projector `perspectiveProject` on finite coordinates, read without
rounding and without overflow.  It has the value of `perspectiveProject`
whenever `point.z` is not zero and the two products and the two quotients are
binary32 values (`perspectiveProject_exact_agrees`); at `point.z = 0`, where
the float function returns an infinity or a NaN, its value carries no
meaning. -/
def perspectiveProject_exact (point : vec3_t) : vec2_t :=
  { x := (fov_factor * point.x) / point.z,
    y := (fov_factor * point.y) / point.z }

/-! ## Collaborators that are not part of the sources at hand -/

/-- What `main.c` takes from `vector.h` and `display.h`: the three rotation
functions, the window size (`int` globals handed to `SDL_CreateTexture`,
whose width and height parameters are `int`) and the frame-time constant. -/
structure Env where
  vec3_rotate_x : vec3_t → ℚ → vec3_t
  vec3_rotate_y : vec3_t → ℚ → vec3_t
  vec3_rotate_z : vec3_t → ℚ → vec3_t
  window_width : Int
  window_height : Int
  FRAME_TARGET_TIME : Int

/-- Modelled from the spec: `array_push` of `array.h` (missing), append at the
end of a growable sequence. -/
def array_push {α : Type} (arr : List α) (value : α) : List α :=
  arr ++ [value]

/-- Modelled from the spec: a polynomial stand-in for the `cos` of the C
library, exact at `0`, used only to build a concrete `Env`. -/
def cos_model (angle : ℚ) : ℚ :=
  1 - angle ^ 2 / 2 + angle ^ 4 / 24

/-- Modelled from the spec: a polynomial stand-in for the `sin` of the C
library, exact at `0`, used only to build a concrete `Env`. -/
def sin_model (angle : ℚ) : ℚ :=
  angle - angle ^ 3 / 6 + angle ^ 5 / 120

/-- Modelled from the spec: `vec3_rotate_x` of `vector.h` (missing), the
standard right-handed rotation about the x axis. -/
def rotate_x_model (v : vec3_t) (angle : ℚ) : vec3_t :=
  { x := v.x,
    y := v.y * cos_model angle - v.z * sin_model angle,
    z := v.y * sin_model angle + v.z * cos_model angle }

/-- Modelled from the spec: `vec3_rotate_y` of `vector.h` (missing), the
standard right-handed rotation about the y axis. -/
def rotate_y_model (v : vec3_t) (angle : ℚ) : vec3_t :=
  { x := v.x * cos_model angle + v.z * sin_model angle,
    y := v.y,
    z := v.z * cos_model angle - v.x * sin_model angle }

/-- Modelled from the spec: `vec3_rotate_z` of `vector.h` (missing), the
standard right-handed rotation about the z axis. -/
def rotate_z_model (v : vec3_t) (angle : ℚ) : vec3_t :=
  { x := v.x * cos_model angle - v.y * sin_model angle,
    y := v.x * sin_model angle + v.y * cos_model angle,
    z := v.z }

/-- A concrete environment: the modelled rotations, a window of the given
size and a frame time of 33 ms. -/
def model_env (width height : Int) : Env :=
  { vec3_rotate_x := rotate_x_model,
    vec3_rotate_y := rotate_y_model,
    vec3_rotate_z := rotate_z_model,
    window_width := width,
    window_height := height,
    FRAME_TARGET_TIME := 33 }

/-! ## Program state -/

/-- The global variables read or written by `main.c`.  `color_buffer` is
`none` for the `NULL` pointer and `some n` for a block of `n` bytes. -/
structure State where
  triangles_to_render : List triangle_t
  is_running : Bool
  previous_frame_time : Int
  mesh : mesh_t
  color_buffer : Option Int
deriving DecidableEq, Repr

/-- The part of an `SDL_Event` that `process_input` reads: the `type` tag
(`Uint32`) and `key.keysym.sym` (`SDL_Keycode`, a 32-bit signed integer). -/
structure SDL_Event where
  type : Nat
  key_keysym_sym : Int
deriving DecidableEq, Repr

/-- The `SDL_QUIT` event type of SDL2. -/
def SDL_QUIT : Nat := 0x100

/-- The `SDL_KEYDOWN` event type of SDL2. -/
def SDL_KEYDOWN : Nat := 0x300

/-- The `SDLK_ESCAPE` key code of SDL2. -/
def SDLK_ESCAPE : Int := 27

/-- `process_input` of `main.c`, given the event that `SDL_PollEvent` left in
`event`.  The `break` under the `if` of the key-down case is not part of the
`if`; it ends the case whatever the key. -/
def process_input (event : SDL_Event) (s : State) : State :=
  if event.type = SDL_QUIT then
    { s with is_running := false }
  else if event.type = SDL_KEYDOWN then
    if event.key_keysym_sym = SDLK_ESCAPE then
      { s with is_running := false }
    else s
  else s

/-! ## update -/

/-- Conversion of an integer to `Uint32`: reduction modulo `2^32`. -/
def toUint32 (n : Int) : Int :=
  n % 4294967296

/-- Conversion of an integer to a 32-bit `int` (two's complement wrap). -/
def toInt32 (n : Int) : Int :=
  if toUint32 n < 2147483648 then toUint32 n else toUint32 n - 4294967296

/-- The value of `time_to_wait` in `update`:
`FRAME_TARGET_TIME - (SDL_GetTicks() - previous_frame_time)`, computed in
`Uint32` and stored in an `int`. -/
def time_to_wait (env : Env) (ticks : Int) (previous_frame_time : Int) : Int :=
  toInt32 (toUint32 env.FRAME_TARGET_TIME
            - toUint32 (toUint32 ticks - toUint32 previous_frame_time))

/-- The argument of the `SDL_Delay` call of `update`, when the call is made. -/
def delay_request (env : Env) (ticks : Int) (previous_frame_time : Int) : Option Int :=
  if 0 < time_to_wait env ticks previous_frame_time
      ∧ time_to_wait env ticks previous_frame_time ≤ env.FRAME_TARGET_TIME then
    some (time_to_wait env ticks previous_frame_time)
  else none

/-- The read `mesh.vertices[index]`; `none` outside the sequence. -/
def fetch_vertex (vertices : List vec3_t) (index : Int) : Option vec3_t :=
  if 0 ≤ index then vertices[index.toNat]? else none

/-- Lines 122-125 of `update`: the three reads that fill `face_vertices`. -/
def fetch_face_vertices (vertices : List vec3_t) (mesh_face : face_t) :
    Option (Array3 vec3_t) :=
  match fetch_vertex vertices (mesh_face.a - 1) with
  | none => none
  | some v0 =>
    match fetch_vertex vertices (mesh_face.b - 1) with
    | none => none
    | some v1 =>
      match fetch_vertex vertices (mesh_face.c - 1) with
      | none => none
      | some v2 => some { e0 := v0, e1 := v1, e2 := v2 }

/-- Lines 131-138 of `update`: the three rotations, then the camera
translation of the z coordinate. -/
def transform_vertex (env : Env) (rotation : vec3_t) (face_vertex : vec3_t) : vec3_t :=
  let t1 := env.vec3_rotate_x face_vertex rotation.x
  let t2 := env.vec3_rotate_y t1 rotation.y
  let t3 := env.vec3_rotate_z t2 rotation.z
  { t3 with z := t3.z - camera_position.z }

/-- Lines 144-145 of `update`: `window_width / 2` and `window_height / 2` are
`int` divisions (truncating), converted to float and added. -/
def center_offset (env : Env) (projected_point : vec2_t) : vec2_t :=
  { x := projected_point.x + ((Int.tdiv env.window_width 2 : Int) : ℚ),
    y := projected_point.y + ((Int.tdiv env.window_height 2 : Int) : ℚ) }

/-- The body of the inner loop of `update` for one vertex (lines 131-147). -/
def project_vertex (env : Env) (rotation : vec3_t) (face_vertex : vec3_t) : vec2_t :=
  center_offset env (perspectiveProject_exact (transform_vertex env rotation face_vertex))

/-- The body of the outer loop of `update` up to `projected_triangle`. -/
def project_face (env : Env) (mesh : mesh_t) (mesh_face : face_t) : Option triangle_t :=
  match fetch_face_vertices mesh.vertices mesh_face with
  | none => none
  | some face_vertices =>
    some { points := face_vertices.map (project_vertex env mesh.rotation) }

/-- The outer loop of `update` over the faces still to visit (positions `i`
to `array_length(mesh.faces) - 1`), with the triangles pushed so far. -/
def face_loop (env : Env) (mesh : mesh_t) :
    List face_t → List triangle_t → Option (List triangle_t)
  | [], triangles => some triangles
  | mesh_face :: rest, triangles =>
    match project_face env mesh mesh_face with
    | none => none
    | some projected_triangle =>
      face_loop env mesh rest (array_push triangles projected_triangle)

/-- The rotation state after lines 112-114 of `update`. -/
def advance_rotation (rotation : vec3_t) : vec3_t :=
  { x := rotation.x + 0, y := rotation.y + 1 / 100, z := rotation.z + 0 }

/-- The global `mesh` after lines 112-114 of `update`: only the rotation
state changes. -/
def advance_mesh (mesh : mesh_t) : mesh_t :=
  { vertices := mesh.vertices,
    faces := mesh.faces,
    rotation := advance_rotation mesh.rotation }

/-- `update` of `main.c`; `ticks1` is the result of the second `SDL_GetTicks`
call.  `triangles_to_render` restarts from `NULL`. -/
def update (env : Env) (ticks1 : Int) (s : State) : Option State :=
  match face_loop env (advance_mesh s.mesh) (advance_mesh s.mesh).faces [] with
  | none => none
  | some triangles =>
    some { triangles_to_render := triangles,
           is_running := s.is_running,
           previous_frame_time := toInt32 ticks1,
           mesh := advance_mesh s.mesh,
           color_buffer := s.color_buffer }

/-! ## render, setup, main -/

/-- The calls that `main.c` makes into the display layer, SDL and the C
library, with the argument expressions as written at the call site. -/
inductive Call where
  | fprintf_stderr (message : String)
  | SDL_CreateTexture (width height : Int)
  | load_obj_file_data (filename : String)
  | SDL_PollEvent
  | SDL_GetTicks
  | SDL_Delay (ms : Int)
  | draw_grid_dots
  | draw_rect (x y : ℚ) (width height : Int) (color : Nat)
  | draw_triangle (x0 y0 x1 y1 x2 y2 : ℚ) (color : Nat)
  | array_free_triangles_to_render
  | render_color_buffer
  | clear_color_buffer (color : Nat)
  | SDL_RenderPresent
  | destroy_window
  | free_color_buffer
  | array_free_mesh_faces
  | array_free_mesh_vertices
deriving DecidableEq, Repr

/-- The body of the loop of `render` for one triangle: three `draw_rect`
calls, then one `draw_triangle` call. -/
def draw_calls (triangle : triangle_t) : List Call :=
  [ Call.draw_rect triangle.points.e0.x triangle.points.e0.y 3 3 0xFF00FF00,
    Call.draw_rect triangle.points.e1.x triangle.points.e1.y 3 3 0xFF00FF00,
    Call.draw_rect triangle.points.e2.x triangle.points.e2.y 3 3 0xFF00FF00,
    Call.draw_triangle
      triangle.points.e0.x triangle.points.e0.y
      triangle.points.e1.x triangle.points.e1.y
      triangle.points.e2.x triangle.points.e2.y
      0xFFFF0000 ]

/-- The loop of `render` over `triangles_to_render`, from the first triangle
to the last. -/
def render_loop : List triangle_t → List Call
  | [] => []
  | triangle :: rest => draw_calls triangle ++ render_loop rest

/-- `render` of `main.c`: the calls it makes, in order.  The array freed by
`array_free` is not read again before `update` restarts it from `NULL`. -/
def render (s : State) : List Call :=
  [Call.draw_grid_dots]
    ++ render_loop s.triangles_to_render
    ++ [ Call.array_free_triangles_to_render,
         Call.render_color_buffer,
         Call.clear_color_buffer 0xFF000000,
         Call.SDL_RenderPresent ]

/-- `setup` of `main.c`.  `malloc_result` is what `malloc` returned and
`loaded` is the mesh as `load_obj_file_data` leaves it.  A `NULL` buffer is
reported on `stderr`; nothing else depends on it. -/
def setup (env : Env) (malloc_result : Option Int) (loaded : mesh_t) (s : State) :
    List Call × State :=
  ( (if malloc_result.isNone then
        [Call.fprintf_stderr "Error initializing color buffer.\n"]
      else [])
      ++ [ Call.SDL_CreateTexture env.window_width env.window_height,
           Call.load_obj_file_data "./assets/train.obj" ],
    { s with color_buffer := malloc_result, mesh := loaded } )

/-- What one iteration of the game loop receives from outside: the polled
event and the results of the two `SDL_GetTicks` calls of `update`. -/
structure FrameInput where
  event : SDL_Event
  ticks0 : Int
  ticks1 : Int
deriving DecidableEq, Repr

/-- How an observed run of `main` ends. -/
inductive Ending where
  | returned
  | still_running
  | undefined_behaviour
deriving DecidableEq, Repr

/-- The calls of `update`, given the state it starts from. -/
def update_calls (env : Env) (ticks0 : Int) (s : State) : List Call :=
  [Call.SDL_GetTicks]
    ++ (match delay_request env ticks0 s.previous_frame_time with
        | some ms => [Call.SDL_Delay ms]
        | none => [])
    ++ [Call.SDL_GetTicks]

/-- The loop `while (is_running) { process_input(); update(); render(); }`,
observed for as many iterations as there are frame inputs.  It returns the
calls made, how the observation ends, and the last state. -/
def game_loop (env : Env) : List FrameInput → State → List Call × Ending × State
  | [], s => ([], (if s.is_running then Ending.still_running else Ending.returned), s)
  | frame :: rest, s =>
    if s.is_running then
      let s1 := process_input frame.event s
      match update env frame.ticks1 s1 with
      | none =>
        ([Call.SDL_PollEvent] ++ update_calls env frame.ticks0 s1,
          Ending.undefined_behaviour, s1)
      | some s2 =>
        let tail := game_loop env rest s2
        ([Call.SDL_PollEvent] ++ update_calls env frame.ticks0 s1 ++ render s2 ++ tail.1,
          tail.2)
    else ([], Ending.returned, s)

/-- `free_resources` of `main.c`. -/
def free_resources : List Call :=
  [Call.free_color_buffer, Call.array_free_mesh_faces, Call.array_free_mesh_vertices]

/-- The globals of `main.c` at program start; `mesh` and `color_buffer`
belong to other files and are overwritten by `setup`. -/
def initial_state : State :=
  { triangles_to_render := [],
    is_running := false,
    previous_frame_time := 0,
    mesh := { vertices := [], faces := [], rotation := ⟨0, 0, 0⟩ },
    color_buffer := none }

/-- `main` of `main.c`; `window_ok` is what `initialize_window` returned.
The result is the sequence of calls made and how the observation ends. -/
def main (env : Env) (window_ok : Bool) (malloc_result : Option Int) (loaded : mesh_t)
    (frames : List FrameInput) : List Call × Ending :=
  let s0 : State := { initial_state with is_running := window_ok }
  let s1 := setup env malloc_result loaded s0
  let run := game_loop env frames s1.2
  match run.2.1 with
  | Ending.returned => (s1.1 ++ run.1 ++ [Call.destroy_window] ++ free_resources, Ending.returned)
  | other => (s1.1 ++ run.1, other)

/-! ## Specification-side vocabulary -/

/-- The loader invariant of the data model for one face: each of the three
indices lies between 1 and the vertex count. -/
def valid_face (vertices : List vec3_t) (f : face_t) : Prop :=
  (1 ≤ f.a ∧ f.a ≤ (vertices.length : Int))
    ∧ (1 ≤ f.b ∧ f.b ≤ (vertices.length : Int))
    ∧ (1 ≤ f.c ∧ f.c ≤ (vertices.length : Int))

instance (vertices : List vec3_t) (f : face_t) : Decidable (valid_face vertices f) := by
  unfold valid_face; infer_instance

/-- The element `x` is the `k`-th element of `xs`, counting from 1: exactly
`k - 1` elements stand before it. -/
def is_nth {α : Type} (xs : List α) (k : Int) (x : α) : Prop :=
  ∃ before after : List α, xs = before ++ x :: after ∧ (before.length : Int) + 1 = k

/-- The composition of the three rotations in the order x, y, z. -/
def rotate_xyz (env : Env) (rotation : vec3_t) (v : vec3_t) : vec3_t :=
  env.vec3_rotate_z (env.vec3_rotate_y (env.vec3_rotate_x v rotation.x) rotation.y) rotation.z

/-- The camera-space vertex in the words of the specification: rotate about
x, then y, then z; keep x and y; subtract `camera_position.z` from z. -/
def camera_space (env : Env) (rotation : vec3_t) (v : vec3_t) : vec3_t :=
  { x := (rotate_xyz env rotation v).x,
    y := (rotate_xyz env rotation v).y,
    z := (rotate_xyz env rotation v).z - camera_position.z }

/-- Whether a call draws into the pixel buffer (the rasterizer operations). -/
def Call.is_draw : Call → Bool
  | Call.draw_grid_dots => true
  | Call.draw_rect _ _ _ _ _ => true
  | Call.draw_triangle _ _ _ _ _ _ _ => true
  | _ => false

/-- Whether a call is a `clear_color_buffer` call. -/
def Call.is_clear : Call → Bool
  | Call.clear_color_buffer _ => true
  | _ => false

/-! ## Sample data -/

/-- A mesh of one face whose three vertices lie at `z = -10`, behind the
camera placed at `z = -5`. -/
def mesh_behind : mesh_t :=
  { vertices := [⟨0, 0, -10⟩, ⟨1, 0, -10⟩, ⟨0, 1, -10⟩],
    faces := [⟨1, 2, 3⟩],
    rotation := ⟨0, 0, 0⟩ }

/-- A mesh of one face whose three indices all name the origin. -/
def mesh_origin : mesh_t :=
  { vertices := [⟨0, 0, 0⟩],
    faces := [⟨1, 1, 1⟩],
    rotation := ⟨0, 0, 0⟩ }

/-- A mesh of one face with three vertices off the axes, about to be rotated
by one radian about each axis (the y angle reaches 1 after `update` has added
`0.01`). -/
def mesh_tilted : mesh_t :=
  { vertices := [⟨1, 2, 3⟩, ⟨-1, 0, 2⟩, ⟨0, 1, -1⟩],
    faces := [⟨1, 2, 3⟩],
    rotation := ⟨1, 99 / 100, 1⟩ }

/-- The mesh with no vertex and no face. -/
def mesh_empty : mesh_t :=
  { vertices := [], faces := [], rotation := ⟨0, 0, 0⟩ }

/-- A running state around a given mesh. -/
def state_of (mesh : mesh_t) : State :=
  { initial_state with is_running := true, mesh := mesh, color_buffer := some 1920000 }

/-! ## Auxiliary lemmas -/

theorem fetch_vertex_of_bounds (vertices : List vec3_t) (k : Int)
    (h1 : 1 ≤ k) (h2 : k ≤ (vertices.length : Int)) :
    ∃ v, fetch_vertex vertices (k - 1) = some v
      ∧ vertices[(k - 1).toNat]? = some v ∧ is_nth vertices k v := by
  have hlt : (k - 1).toNat < vertices.length := by omega
  refine ⟨vertices[(k - 1).toNat], ?_, ?_, ?_⟩
  · have h0 : (0 : Int) ≤ k - 1 := by omega
    simp [fetch_vertex, h0, List.getElem?_eq_getElem hlt]
  · exact List.getElem?_eq_getElem hlt
  · refine ⟨vertices.take (k - 1).toNat, vertices.drop ((k - 1).toNat + 1), ?_, ?_⟩
    · rw [List.getElem_cons_drop vertices (k - 1).toNat hlt]
      exact (List.take_append_drop _ _).symm
    · rw [List.length_take]
      omega

theorem fetch_face_vertices_of_valid (vertices : List vec3_t) (f : face_t)
    (h : valid_face vertices f) :
    ∃ va vb vc, fetch_face_vertices vertices f = some { e0 := va, e1 := vb, e2 := vc }
      ∧ (vertices[(f.a - 1).toNat]? = some va ∧ is_nth vertices f.a va)
      ∧ (vertices[(f.b - 1).toNat]? = some vb ∧ is_nth vertices f.b vb)
      ∧ (vertices[(f.c - 1).toNat]? = some vc ∧ is_nth vertices f.c vc) := by
  obtain ⟨⟨a1, a2⟩, ⟨b1, b2⟩, ⟨c1, c2⟩⟩ := h
  obtain ⟨va, hva, ga, na⟩ := fetch_vertex_of_bounds vertices f.a a1 a2
  obtain ⟨vb, hvb, gb, nb⟩ := fetch_vertex_of_bounds vertices f.b b1 b2
  obtain ⟨vc, hvc, gc, nc⟩ := fetch_vertex_of_bounds vertices f.c c1 c2
  exact ⟨va, vb, vc, by simp [fetch_face_vertices, hva, hvb, hvc],
    ⟨ga, na⟩, ⟨gb, nb⟩, ⟨gc, nc⟩⟩

theorem project_face_of_fetch (env : Env) (mesh : mesh_t) (f : face_t) (fv : Array3 vec3_t)
    (h : fetch_face_vertices mesh.vertices f = some fv) :
    project_face env mesh f
      = some { points := { e0 := project_vertex env mesh.rotation fv.e0,
                           e1 := project_vertex env mesh.rotation fv.e1,
                           e2 := project_vertex env mesh.rotation fv.e2 } } := by
  simp [project_face, h, Array3.map]

theorem project_face_some_inv (env : Env) (mesh : mesh_t) (f : face_t) (t : triangle_t)
    (h : project_face env mesh f = some t) :
    ∃ fv, fetch_face_vertices mesh.vertices f = some fv
      ∧ t = { points := { e0 := project_vertex env mesh.rotation fv.e0,
                          e1 := project_vertex env mesh.rotation fv.e1,
                          e2 := project_vertex env mesh.rotation fv.e2 } } := by
  unfold project_face at h
  cases hf : fetch_face_vertices mesh.vertices f with
  | none => simp [hf] at h
  | some fv =>
    refine ⟨fv, rfl, ?_⟩
    simp [hf, Array3.map] at h
    exact h.symm

/-- The face loop succeeds exactly when every face projects, and then it
appends the projected triangles, in face order, to what was pushed before. -/
theorem face_loop_eq_some_iff (env : Env) (mesh : mesh_t) :
    ∀ (faces : List face_t) (acc out : List triangle_t),
      face_loop env mesh faces acc = some out ↔
        ∃ ts : List triangle_t, faces.map (project_face env mesh) = ts.map some ∧ out = acc ++ ts := by
  intro faces
  induction faces with
  | nil =>
    intro acc out
    simp [face_loop]
    exact eq_comm
  | cons f rest ih =>
    intro acc out
    cases hp : project_face env mesh f with
    | none =>
      simp only [face_loop, hp, List.map_cons]
      constructor
      · intro h; cases h
      · rintro ⟨ts, hts, -⟩
        cases ts with
        | nil => simp at hts
        | cons t ts => simp at hts
    | some t =>
      simp only [face_loop, hp, List.map_cons, ih, array_push]
      constructor
      · rintro ⟨ts, hts, rfl⟩
        exact ⟨t :: ts, by simp [hts], by simp⟩
      · rintro ⟨ts, hts, rfl⟩
        cases ts with
        | nil => simp at hts
        | cons u us =>
          simp at hts
          obtain ⟨rfl, hus⟩ := hts
          exact ⟨us, hus, by simp⟩

theorem map_project_face_of_valid (env : Env) (mesh : mesh_t) :
    ∀ (faces : List face_t), (∀ f ∈ faces, valid_face mesh.vertices f) →
      ∃ ts : List triangle_t, faces.map (project_face env mesh) = ts.map some := by
  intro faces
  induction faces with
  | nil => intro _; exact ⟨[], rfl⟩
  | cons f rest ih =>
    intro h
    obtain ⟨ts, hts⟩ := ih (fun g hg => h g (List.mem_cons_of_mem _ hg))
    obtain ⟨va, vb, vc, hfv, -⟩ :=
      fetch_face_vertices_of_valid mesh.vertices f (h f (List.mem_cons_self _ _))
    refine ⟨{ points := { e0 := project_vertex env mesh.rotation va,
                          e1 := project_vertex env mesh.rotation vb,
                          e2 := project_vertex env mesh.rotation vc } } :: ts, ?_⟩
    simp [project_face_of_fetch env mesh f _ hfv, hts]

theorem getElem?_of_map_eq_map_some {α β : Type} (g : α → Option β) :
    ∀ (xs : List α) (ys : List β), xs.map g = ys.map some →
      xs.length = ys.length ∧ ∀ (i : Nat) (x : α), xs[i]? = some x → ∃ y, g x = some y ∧ ys[i]? = some y := by
  intro xs ys h
  have hl : xs.length = ys.length := by
    have := congrArg List.length h
    simpa using this
  refine ⟨hl, ?_⟩
  intro i x hx
  have h1 : (xs.map g)[i]? = (ys.map some)[i]? := by rw [h]
  simp only [List.getElem?_map, hx, Option.map_some'] at h1
  cases hy : ys[i]? with
  | none => simp [hy] at h1
  | some y =>
    simp [hy] at h1
    exact ⟨y, h1, rfl⟩

/-- What `update` returns, in terms of the projected faces. -/
theorem update_eq_some_iff (env : Env) (ticks1 : Int) (s t : State) :
    update env ticks1 s = some t ↔
      ∃ ts : List triangle_t,
        s.mesh.faces.map (project_face env (advance_mesh s.mesh)) = ts.map some
        ∧ t = { triangles_to_render := ts,
                is_running := s.is_running,
                previous_frame_time := toInt32 ticks1,
                mesh := advance_mesh s.mesh,
                color_buffer := s.color_buffer } := by
  unfold update
  have hfaces : (advance_mesh s.mesh).faces = s.mesh.faces := rfl
  rw [hfaces]
  cases hl : face_loop env (advance_mesh s.mesh) s.mesh.faces [] with
  | none =>
    constructor
    · intro h; cases h
    · rintro ⟨ts, hts, -⟩
      have := (face_loop_eq_some_iff env _ s.mesh.faces [] ([] ++ ts)).2 ⟨ts, hts, rfl⟩
      rw [hl] at this
      cases this
  | some out =>
    obtain ⟨ts, hts, hout⟩ := (face_loop_eq_some_iff env _ s.mesh.faces [] out).1 hl
    rw [List.nil_append] at hout
    subst hout
    constructor
    · intro h
      refine ⟨out, hts, ?_⟩
      simp at h
      simpa using h.symm
    · rintro ⟨us, hus, rfl⟩
      have hEq : out.map some = us.map some := by rw [← hts, ← hus]
      have : out = us := List.map_injective_iff.2 (Option.some_injective _) hEq
      subst this
      simp

theorem transform_vertex_eq_camera_space (env : Env) (rotation v : vec3_t) :
    transform_vertex env rotation v = camera_space env rotation v := by
  simp [transform_vertex, camera_space, rotate_xyz]

/-- On a mesh that satisfies the loader invariant `update` returns, and its
triangle list is the list of projected faces. -/
theorem update_of_valid (env : Env) (ticks1 : Int) (s : State)
    (hvalid : ∀ f ∈ s.mesh.faces, valid_face s.mesh.vertices f) :
    ∃ ts : List triangle_t,
      s.mesh.faces.map (project_face env (advance_mesh s.mesh)) = ts.map some
      ∧ update env ticks1 s
          = some { triangles_to_render := ts,
                   is_running := s.is_running,
                   previous_frame_time := toInt32 ticks1,
                   mesh := advance_mesh s.mesh,
                   color_buffer := s.color_buffer } := by
  obtain ⟨ts, hts⟩ := map_project_face_of_valid env (advance_mesh s.mesh) s.mesh.faces hvalid
  exact ⟨ts, hts, (update_eq_some_iff env ticks1 s _).2 ⟨ts, hts, rfl⟩⟩

/-- The triangle that `update` stores for the face at position `i`. -/
theorem update_triangle_at (env : Env) (ticks1 : Int) (s t : State) (i : Nat) (f : face_t)
    (hu : update env ticks1 s = some t) (hf : s.mesh.faces[i]? = some f) :
    t.mesh = advance_mesh s.mesh
      ∧ t.triangles_to_render.length = s.mesh.faces.length
      ∧ ∃ fv, fetch_face_vertices s.mesh.vertices f = some fv
          ∧ t.triangles_to_render[i]?
              = some { points :=
                  { e0 := project_vertex env (advance_rotation s.mesh.rotation) fv.e0,
                    e1 := project_vertex env (advance_rotation s.mesh.rotation) fv.e1,
                    e2 := project_vertex env (advance_rotation s.mesh.rotation) fv.e2 } } := by
  obtain ⟨ts, hts, rfl⟩ := (update_eq_some_iff env ticks1 s t).1 hu
  obtain ⟨hlen, hget⟩ := getElem?_of_map_eq_map_some _ _ _ hts
  obtain ⟨tri, hp, hi⟩ := hget i f hf
  obtain ⟨fv, hfv, rfl⟩ := project_face_some_inv env _ f tri hp
  exact ⟨rfl, hlen.symm, fv, hfv, hi⟩

/-- The first frame on `mesh_origin` in a window of 801 by 601. -/
theorem update_mesh_origin_801_601 :
    update (model_env 801 601) 0 (state_of mesh_origin)
      = some { triangles_to_render :=
                 [{ points := { e0 := ⟨400, 300⟩, e1 := ⟨400, 300⟩, e2 := ⟨400, 300⟩ } }],
               is_running := true,
               previous_frame_time := 0,
               mesh := advance_mesh mesh_origin,
               color_buffer := some 1920000 } := by
  simp [update, face_loop, project_face, fetch_face_vertices, fetch_vertex, advance_mesh,
    mesh_origin, state_of, initial_state, array_push, Array3.map, project_vertex,
    center_offset, perspectiveProject_exact, transform_vertex, model_env, rotate_x_model,
    rotate_y_model, rotate_z_model, camera_position, toInt32, toUint32, advance_rotation,
    (by decide : Int.tdiv 801 2 = 400), (by decide : Int.tdiv 601 2 = 300)]

/-- In the first frame, a vertex at `(x, y, -10)` with `x` between 0 and 1 is
behind the camera after rotation and translation. -/
theorem mesh_behind_vertices_negative_z :
    ∀ v ∈ mesh_behind.vertices,
      (transform_vertex (model_env 800 600) (advance_rotation mesh_behind.rotation) v).z < 0 := by
  intro v hv
  simp only [mesh_behind, List.mem_cons, List.mem_singleton, List.mem_nil_iff, or_false] at hv
  rcases hv with rfl | rfl | rfl <;>
    simp [transform_vertex, model_env, rotate_x_model, rotate_y_model, rotate_z_model,
      camera_position, advance_rotation, cos_model, sin_model, mesh_behind] <;>
    norm_num

theorem not_inside_near_plane_of_neg_z (z_near : ℚ) (hn : 0 ≤ z_near) (p : vec3_t)
    (hp : p.z < 0) : ¬ plane_inside (near_plane z_near) p := by
  simp only [plane_inside, near_plane]
  intro h
  linarith

/-- The first frame on `mesh_tilted` in a window of 800 by 600. -/
theorem update_mesh_tilted_800_600 :
    update (model_env 800 600) 0 (state_of mesh_tilted)
      = some { triangles_to_render :=
                 [{ points := { e0 := ⟨37236608 / 51411, 132927652 / 257055⟩,
                                e1 := ⟨15579904 / 27771, 6671668 / 27771⟩,
                                e2 := ⟨1013312 / 3717, 7791548 / 18585⟩ } }],
               is_running := true,
               previous_frame_time := 0,
               mesh := advance_mesh mesh_tilted,
               color_buffer := some 1920000 } := by
  simp [update, face_loop, project_face, fetch_face_vertices, fetch_vertex, advance_mesh,
    mesh_tilted, state_of, initial_state, array_push, Array3.map, project_vertex,
    center_offset, perspectiveProject_exact, transform_vertex, model_env, rotate_x_model,
    rotate_y_model, rotate_z_model, camera_position, toInt32, toUint32, advance_rotation,
    cos_model, sin_model, fov_factor,
    (by decide : Int.tdiv 800 2 = 400), (by decide : Int.tdiv 600 2 = 300)]
  norm_num

/-- The camera-space vertex of `(1, 2, 3)` in the first frame of
`mesh_tilted`, and what other readings of the transform would give. -/
theorem camera_space_mesh_tilted :
    camera_space (model_env 800 600) (advance_mesh mesh_tilted).rotation ⟨1, 2, 3⟩
        = ⟨1042013 / 345600, 3488197 / 1728000, 17137 / 2880⟩
      ∧ rotate_xyz (model_env 800 600) (advance_mesh mesh_tilted).rotation ⟨1, 2, 3⟩
        = ⟨1042013 / 345600, 3488197 / 1728000, 2737 / 2880⟩
      ∧ rotate_x_model (rotate_y_model (rotate_z_model ⟨1, 2, 3⟩ 1) 1) 1
        = ⟨5491 / 2880, -1959137 / 1728000, 41761 / 13824⟩ := by
  simp [camera_space, rotate_xyz, advance_mesh, mesh_tilted, model_env, rotate_x_model,
    rotate_y_model, rotate_z_model, camera_position, advance_rotation, cos_model, sin_model]
  norm_num

/-! ## Lemmas on binary32 rounding -/

theorem round_half_even_intCast (k : Int) : round_half_even (k : ℚ) = k := by
  simp [round_half_even]

/-- An integer multiple of a power of two that is a multiple of the unit in
the last place is not moved by the rounding of the significand. -/
theorem round_half_even_scaled (m e E : Int) (hE : E ≤ e) :
    ((round_half_even ((m : ℚ) * 2 ^ e / 2 ^ E) : Int) : ℚ) * 2 ^ E = (m : ℚ) * 2 ^ e := by
  obtain ⟨k, rfl⟩ := Int.le.dest hE
  have hE0 : (2 : ℚ) ^ E ≠ 0 := by positivity
  have hscaled : (m : ℚ) * 2 ^ (E + (k : Int)) / 2 ^ E = ((m * 2 ^ k : Int) : ℚ) := by
    rw [zpow_add₀ (by norm_num : (2 : ℚ) ≠ 0), zpow_natCast]
    field_simp
    ring
  rw [hscaled, round_half_even_intCast, ← hscaled]
  field_simp

/-- Rounding leaves a nonzero binary32 value as it is. -/
theorem round_f32_of_is_f32 (q : ℚ) (h : is_f32 q) (hq : q ≠ 0) : round_f32 q = f32.fin q := by
  obtain ⟨m, e, hm, he1, he2, rfl⟩ := h
  have hm0 : m ≠ 0 := by
    rintro rfl
    simp at hq
  have h2pos : ∀ z : Int, (0 : ℚ) < 2 ^ z := fun z => by positivity
  have habs : |(m : ℚ) * 2 ^ e| = (|m| : Int) * 2 ^ e := by
    rw [abs_mul, abs_of_pos (h2pos e), Int.cast_abs]
  have hm1 : (1 : ℚ) ≤ ((|m| : Int) : ℚ) := by
    have : (1 : Int) ≤ |m| := Int.one_le_abs hm0
    exact_mod_cast this
  have hm2 : ((|m| : Int) : ℚ) < 2 ^ (24 : Int) := by
    have : ((|m| : Int) : ℚ) < ((2 ^ 24 : Int) : ℚ) := by exact_mod_cast hm
    rw [zpow_ofNat]
    exact_mod_cast this
  have hpos : 0 < |(m : ℚ) * 2 ^ e| := abs_pos.2 hq
  have hlow : (2 : ℚ) ^ e ≤ |(m : ℚ) * 2 ^ e| := by
    rw [habs]
    calc (2 : ℚ) ^ e = 1 * 2 ^ e := by ring
      _ ≤ ((|m| : Int) : ℚ) * 2 ^ e := mul_le_mul_of_nonneg_right hm1 (le_of_lt (h2pos e))
  have hhigh : |(m : ℚ) * 2 ^ e| < (2 : ℚ) ^ (e + 24) := by
    rw [habs, zpow_add₀ (by norm_num : (2 : ℚ) ≠ 0), mul_comm ((2 : ℚ) ^ e)]
    exact mul_lt_mul_of_pos_right hm2 (h2pos e)
  have hL1 : e ≤ Int.log 2 |(m : ℚ) * 2 ^ e| :=
    (Int.zpow_le_iff_le_log (by norm_num) hpos).1 (by exact_mod_cast hlow)
  have hL2 : Int.log 2 |(m : ℚ) * 2 ^ e| < e + 24 :=
    (Int.lt_zpow_iff_log_lt (by norm_num) hpos).1 (by exact_mod_cast hhigh)
  have hE : f32_exponent ((m : ℚ) * 2 ^ e) ≤ e := by
    unfold f32_exponent
    omega
  have hr := round_half_even_scaled m e _ hE
  have hlt : |(m : ℚ) * 2 ^ e| < (2 : ℚ) ^ (128 : Int) := by
    refine lt_of_lt_of_le hhigh ?_
    exact zpow_le_zpow_right₀ (by norm_num) (by omega)
  unfold round_f32
  rw [hr]
  rw [if_neg (not_le.2 hlt), if_neg hq]

theorem toRat?_signed_zero (neg : Bool) : (signed_zero neg).toRat? = some 0 := by
  cases neg <;> rfl

/-- A float product of finite operands whose exact product is a binary32
value is that product. -/
theorem f32_mul_exact (a b : f32) (x y : ℚ) (ha : a.toRat? = some x) (hb : b.toRat? = some y)
    (h : is_f32 (x * y)) : (f32_mul a b).toRat? = some (x * y) := by
  unfold f32_mul
  rw [ha, hb]
  by_cases h0 : x * y = 0
  · simp only [h0, if_true, toRat?_signed_zero]
  · simp only [h0, if_false, round_f32_of_is_f32 _ h h0, f32.toRat?]

/-- A float quotient of finite operands, the divisor not zero, whose exact
quotient is a binary32 value is that quotient. -/
theorem f32_div_exact (a b : f32) (x y : ℚ) (ha : a.toRat? = some x) (hb : b.toRat? = some y)
    (hy : y ≠ 0) (h : is_f32 (x / y)) : (f32_div a b).toRat? = some (x / y) := by
  unfold f32_div
  rw [ha, hb]
  by_cases hx : x = 0
  · simp only [hy, hx, if_false, if_true, toRat?_signed_zero, zero_div]
  · have hq : x / y ≠ 0 := div_ne_zero hx hy
    simp only [hy, hx, if_false, round_f32_of_is_f32 _ h hq, f32.toRat?]

/-- Where the two products and the two quotients are binary32 values and `z`
is not zero, the float projector has the values of the exact one. -/
theorem perspectiveProject_exact_agrees (p : vec3_f32) (x y z : ℚ)
    (hx : p.x.toRat? = some x) (hy : p.y.toRat? = some y) (hz : p.z.toRat? = some z)
    (hz0 : z ≠ 0)
    (h1 : is_f32 (640 * x)) (h2 : is_f32 (640 * y))
    (h3 : is_f32 (640 * x / z)) (h4 : is_f32 (640 * y / z)) :
    (perspectiveProject p).x.toRat? = some (perspectiveProject_exact ⟨x, y, z⟩).x
      ∧ (perspectiveProject p).y.toRat? = some (perspectiveProject_exact ⟨x, y, z⟩).y := by
  have hk : (f32.fin fov_factor).toRat? = some 640 := rfl
  have mx := f32_mul_exact _ _ _ _ hk hx h1
  have my := f32_mul_exact _ _ _ _ hk hy h2
  exact ⟨f32_div_exact _ _ _ _ mx hz hz0 h3, f32_div_exact _ _ _ _ my hz hz0 h4⟩

/-! ## C1: the perspective projector -/

/-- C5: `process_input` sets `is_running` to false when the polled event is a
quit event or a key-down event whose key is Escape, and leaves the state, and
so `is_running`, unchanged for every other event, a key-down of another key
included. -/
theorem process_input_quit_or_escape (event : SDL_Event) (s : State) :
    process_input event s
      = if event.type = SDL_QUIT
            ∨ (event.type = SDL_KEYDOWN ∧ event.key_keysym_sym = SDLK_ESCAPE) then
          { triangles_to_render := s.triangles_to_render,
            is_running := false,
            previous_frame_time := s.previous_frame_time,
            mesh := s.mesh,
            color_buffer := s.color_buffer }
        else s := by
  unfold process_input
  by_cases hq : event.type = SDL_QUIT
  · simp [hq]
  · by_cases hk : event.type = SDL_KEYDOWN
    · by_cases he : event.key_keysym_sym = SDLK_ESCAPE
      · simp [hq, hk, he]
      · simp [hq, hk, he]
    · simp [hq, hk]

/-! ## C9: the vertex fetch -/

/-- C9: for a face `(a, b, c)` whose indices lie between 1 and the vertex
count, the fetch of `update` succeeds (the out-of-bounds case does not
arise), reads positions `a-1`, `b-1`, `c-1`, and `face_vertices` holds the
`a`-th, `b`-th and `c`-th vertices, counted from 1, in that order. -/
theorem fetch_face_vertices_in_bounds (vertices : List vec3_t) (f : face_t)
    (h : valid_face vertices f) :
    ∃ va vb vc,
      fetch_face_vertices vertices f = some { e0 := va, e1 := vb, e2 := vc }
        ∧ ((f.a - 1).toNat < vertices.length ∧ (f.b - 1).toNat < vertices.length
            ∧ (f.c - 1).toNat < vertices.length)
        ∧ (vertices[(f.a - 1).toNat]? = some va ∧ vertices[(f.b - 1).toNat]? = some vb
            ∧ vertices[(f.c - 1).toNat]? = some vc)
        ∧ (is_nth vertices f.a va ∧ is_nth vertices f.b vb ∧ is_nth vertices f.c vc) := by
  obtain ⟨va, vb, vc, hfv, ⟨ga, na⟩, ⟨gb, nb⟩, ⟨gc, nc⟩⟩ :=
    fetch_face_vertices_of_valid vertices f h
  obtain ⟨⟨a1, a2⟩, ⟨b1, b2⟩, ⟨c1, c2⟩⟩ := h
  exact ⟨va, vb, vc, hfv, ⟨by omega, by omega, by omega⟩, ⟨ga, gb, gc⟩, ⟨na, nb, nc⟩⟩

/-- C9 on the vertex list of `mesh_behind` with the face `(3, 1, 2)`. -/
theorem fetch_face_vertices_in_bounds_witness :
    valid_face mesh_behind.vertices { a := 3, b := 1, c := 2 }
      ∧ ∃ va vb vc,
          fetch_face_vertices mesh_behind.vertices { a := 3, b := 1, c := 2 }
            = some { e0 := va, e1 := vb, e2 := vc }
          ∧ (((3 : Int) - 1).toNat < mesh_behind.vertices.length
              ∧ ((1 : Int) - 1).toNat < mesh_behind.vertices.length
              ∧ ((2 : Int) - 1).toNat < mesh_behind.vertices.length)
          ∧ (mesh_behind.vertices[((3 : Int) - 1).toNat]? = some va
              ∧ mesh_behind.vertices[((1 : Int) - 1).toNat]? = some vb
              ∧ mesh_behind.vertices[((2 : Int) - 1).toNat]? = some vc)
          ∧ (is_nth mesh_behind.vertices 3 va ∧ is_nth mesh_behind.vertices 1 vb
              ∧ is_nth mesh_behind.vertices 2 vc) :=
  ⟨by decide,
    fetch_face_vertices_in_bounds mesh_behind.vertices { a := 3, b := 1, c := 2 } (by decide)⟩

/-! ## C4: rotation order and camera translation -/

/-- C4: whenever `update` stores a triangle for a face, each of its three
points is the projection, centre offset added, of the camera-space vertex
`rotate_z(rotate_y(rotate_x(v, rx), ry), rz)` with `camera_position.z = -5`
subtracted from z and x, y as the rotations left them; `(rx, ry, rz)` is the
rotation state of the mesh at that moment, the one `update` leaves. -/
theorem update_projects_rotated_xyz_translated (env : Env) (ticks1 : Int) (s t : State)
    (i : Nat) (f : face_t) (tri : triangle_t)
    (hu : update env ticks1 s = some t)
    (hf : s.mesh.faces[i]? = some f)
    (ht : t.triangles_to_render[i]? = some tri) :
    camera_position.z = -5
      ∧ (∀ v, transform_vertex env t.mesh.rotation v
            = { x := (env.vec3_rotate_z (env.vec3_rotate_y
                        (env.vec3_rotate_x v t.mesh.rotation.x) t.mesh.rotation.y)
                        t.mesh.rotation.z).x,
                y := (env.vec3_rotate_z (env.vec3_rotate_y
                        (env.vec3_rotate_x v t.mesh.rotation.x) t.mesh.rotation.y)
                        t.mesh.rotation.z).y,
                z := (env.vec3_rotate_z (env.vec3_rotate_y
                        (env.vec3_rotate_x v t.mesh.rotation.x) t.mesh.rotation.y)
                        t.mesh.rotation.z).z - (-5) })
      ∧ ∃ va vb vc,
          fetch_face_vertices s.mesh.vertices f = some { e0 := va, e1 := vb, e2 := vc }
          ∧ tri.points
              = { e0 := center_offset env
                          (perspectiveProject_exact (camera_space env t.mesh.rotation va)),
                  e1 := center_offset env
                          (perspectiveProject_exact (camera_space env t.mesh.rotation vb)),
                  e2 := center_offset env
                          (perspectiveProject_exact (camera_space env t.mesh.rotation vc)) } := by
  obtain ⟨hmesh, -, fv, hfv, hi⟩ := update_triangle_at env ticks1 s t i f hu hf
  refine ⟨rfl, ?_, fv.e0, fv.e1, fv.e2, hfv, ?_⟩
  · intro v
    simp [transform_vertex, camera_position]
  · rw [hi] at ht
    have hrot : t.mesh.rotation = advance_rotation s.mesh.rotation := by rw [hmesh]; rfl
    have htri := (Option.some.inj ht).symm
    rw [htri, hrot]
    simp [project_vertex, transform_vertex_eq_camera_space]

/-- C4 on `mesh_tilted`, first frame, window of 800 by 600: the rotation
state is `(1, 1, 1)`, the vertex `(1, 2, 3)` is rotated about x, y, z to
`(1042013/345600, 3488197/1728000, 2737/2880)` (the order z, y, x would give
another point), 5 is added to its z, and the stored point is the projection of
that camera-space vertex with the centre offset `(400, 300)`. -/
theorem update_projects_rotated_xyz_translated_witness :
    (update (model_env 800 600) 0 (state_of mesh_tilted)
        = some { triangles_to_render :=
                   [{ points := { e0 := ⟨37236608 / 51411, 132927652 / 257055⟩,
                                  e1 := ⟨15579904 / 27771, 6671668 / 27771⟩,
                                  e2 := ⟨1013312 / 3717, 7791548 / 18585⟩ } }],
                 is_running := true,
                 previous_frame_time := 0,
                 mesh := advance_mesh mesh_tilted,
                 color_buffer := some 1920000 })
      ∧ (state_of mesh_tilted).mesh.faces[0]? = some { a := 1, b := 2, c := 3 }
      ∧ (advance_mesh mesh_tilted).rotation = ⟨1 + 0, 99 / 100 + 1 / 100, 1 + 0⟩
      ∧ (camera_space (model_env 800 600) (advance_mesh mesh_tilted).rotation ⟨1, 2, 3⟩
            = ⟨1042013 / 345600, 3488197 / 1728000, 17137 / 2880⟩
          ∧ rotate_xyz (model_env 800 600) (advance_mesh mesh_tilted).rotation ⟨1, 2, 3⟩
            = ⟨1042013 / 345600, 3488197 / 1728000, 2737 / 2880⟩
          ∧ rotate_x_model (rotate_y_model (rotate_z_model ⟨1, 2, 3⟩ 1) 1) 1
            = ⟨5491 / 2880, -1959137 / 1728000, 41761 / 13824⟩)
      ∧ ∃ va vb vc,
          fetch_face_vertices (state_of mesh_tilted).mesh.vertices { a := 1, b := 2, c := 3 }
            = some { e0 := va, e1 := vb, e2 := vc }
          ∧ ({ e0 := ⟨37236608 / 51411, 132927652 / 257055⟩,
               e1 := ⟨15579904 / 27771, 6671668 / 27771⟩,
               e2 := ⟨1013312 / 3717, 7791548 / 18585⟩ } : Array3 vec2_t)
              = { e0 := center_offset (model_env 800 600) (perspectiveProject_exact
                          (camera_space (model_env 800 600) (advance_mesh mesh_tilted).rotation va)),
                  e1 := center_offset (model_env 800 600) (perspectiveProject_exact
                          (camera_space (model_env 800 600) (advance_mesh mesh_tilted).rotation vb)),
                  e2 := center_offset (model_env 800 600) (perspectiveProject_exact
                          (camera_space (model_env 800 600) (advance_mesh mesh_tilted).rotation vc)) } :=
  ⟨update_mesh_tilted_800_600, rfl, rfl, camera_space_mesh_tilted,
    (update_projects_rotated_xyz_translated (model_env 800 600) 0 (state_of mesh_tilted) _ 0
      { a := 1, b := 2, c := 3 }
      { points := { e0 := ⟨37236608 / 51411, 132927652 / 257055⟩,
                    e1 := ⟨15579904 / 27771, 6671668 / 27771⟩,
                    e2 := ⟨1013312 / 3717, 7791548 / 18585⟩ } }
      update_mesh_tilted_800_600 rfl rfl).2.2⟩

/-! ## C10: one triangle per face -/

/-- C10: on every mesh that satisfies the loader invariant, and whatever the
state (so whatever `triangles_to_render` held), `update` returns, and then
`triangles_to_render` has as many triangles as the mesh has faces (none for a
mesh without faces), the `i`-th being the three projected, centre-offset
vertices of the `i`-th face: its `a`-th, `b`-th and `c`-th vertex, in that
order. -/
theorem update_one_triangle_per_face (env : Env) (ticks1 : Int) (s : State)
    (hvalid : ∀ f ∈ s.mesh.faces, valid_face s.mesh.vertices f) :
    ∃ t, update env ticks1 s = some t
      ∧ t.triangles_to_render.length = s.mesh.faces.length
      ∧ (s.mesh.faces = [] → t.triangles_to_render = [])
      ∧ ∀ (i : Nat) (f : face_t), s.mesh.faces[i]? = some f →
          ∃ va vb vc,
            (is_nth s.mesh.vertices f.a va ∧ is_nth s.mesh.vertices f.b vb
              ∧ is_nth s.mesh.vertices f.c vc)
            ∧ t.triangles_to_render[i]?
                = some { points :=
                    { e0 := center_offset env
                              (perspectiveProject_exact (transform_vertex env t.mesh.rotation va)),
                      e1 := center_offset env
                              (perspectiveProject_exact (transform_vertex env t.mesh.rotation vb)),
                      e2 := center_offset env
                              (perspectiveProject_exact (transform_vertex env t.mesh.rotation vc)) } } := by
  obtain ⟨ts, hts, hupd⟩ := update_of_valid env ticks1 s hvalid
  refine ⟨_, hupd, ?_, ?_, ?_⟩
  · exact ((getElem?_of_map_eq_map_some _ _ _ hts).1).symm
  · intro hnil
    have hlen := (getElem?_of_map_eq_map_some _ _ _ hts).1
    rw [hnil] at hlen
    exact List.length_eq_zero.1 hlen.symm
  · intro i f hf
    obtain ⟨-, -, fv, hfv, hi⟩ := update_triangle_at env ticks1 s _ i f hupd hf
    have hmem : f ∈ s.mesh.faces := List.getElem?_mem hf
    obtain ⟨va, vb, vc, hfv2, ⟨-, na⟩, ⟨-, nb⟩, ⟨-, nc⟩⟩ :=
      fetch_face_vertices_of_valid s.mesh.vertices f (hvalid f hmem)
    rw [hfv2] at hfv
    have hfv3 := (Option.some.inj hfv).symm
    subst hfv3
    exact ⟨va, vb, vc, ⟨na, nb, nc⟩, hi⟩

/-- C10 on `mesh_behind`, whose single face `(1, 2, 3)` is valid. -/
theorem update_one_triangle_per_face_witness :
    (∀ f ∈ (state_of mesh_behind).mesh.faces, valid_face (state_of mesh_behind).mesh.vertices f)
      ∧ ∃ t, update (model_env 800 600) 0 (state_of mesh_behind) = some t
          ∧ t.triangles_to_render.length = 1 := by
  have hv : ∀ f ∈ (state_of mesh_behind).mesh.faces,
      valid_face (state_of mesh_behind).mesh.vertices f := by decide
  obtain ⟨t, h1, h2, -⟩ :=
    update_one_triangle_per_face (model_env 800 600) 0 (state_of mesh_behind) hv
  exact ⟨hv, t, h1, h2⟩

/-! ## C2: faces outside a frustum plane -/

/-- C2, as stated, fails: the three camera-space vertices of the face of
`mesh_behind` have `z < 0` and are outside the near plane at distance `1/10`,
and `update` still stores one triangle for that face. -/
theorem update_keeps_face_behind_camera_counterexample :
    (∀ v ∈ mesh_behind.vertices,
        (transform_vertex (model_env 800 600) (advance_rotation mesh_behind.rotation) v).z < 0
        ∧ ¬ plane_inside (near_plane (1 / 10))
              (transform_vertex (model_env 800 600) (advance_rotation mesh_behind.rotation) v))
      ∧ (update (model_env 800 600) 0 (state_of mesh_behind)).map
            (fun t => t.triangles_to_render.length) = some 1 := by
  refine ⟨fun v hv => ⟨mesh_behind_vertices_negative_z v hv,
    not_inside_near_plane_of_neg_z _ (by norm_num) _ (mesh_behind_vertices_negative_z v hv)⟩, ?_⟩
  obtain ⟨ts, hts, hupd⟩ :=
    update_of_valid (model_env 800 600) 0 (state_of mesh_behind) (by decide)
  have hlen := (getElem?_of_map_eq_map_some _ _ _ hts).1
  rw [hupd]
  simp only [Option.map_some']
  rw [← hlen]
  rfl

/-- C2 as amended: `update` does not clip.  For every face of a mesh that
satisfies the loader invariant, also when its three camera-space vertices all
lie outside the half-space of a plane `pl`, `update` stores exactly one
triangle for it, at the position of the face, made of the three projected
vertices. -/
theorem update_keeps_face_outside_plane (env : Env) (ticks1 : Int) (s : State) (pl : plane_t)
    (i : Nat) (f : face_t) (va vb vc : vec3_t)
    (hvalid : ∀ g ∈ s.mesh.faces, valid_face s.mesh.vertices g)
    (hf : s.mesh.faces[i]? = some f)
    (hfetch : fetch_face_vertices s.mesh.vertices f = some { e0 := va, e1 := vb, e2 := vc })
    (_hout : ¬ plane_inside pl (transform_vertex env (advance_rotation s.mesh.rotation) va)
            ∧ ¬ plane_inside pl (transform_vertex env (advance_rotation s.mesh.rotation) vb)
            ∧ ¬ plane_inside pl (transform_vertex env (advance_rotation s.mesh.rotation) vc)) :
    ∃ t, update env ticks1 s = some t
      ∧ t.triangles_to_render.length = s.mesh.faces.length
      ∧ t.triangles_to_render[i]?
          = some { points :=
              { e0 := project_vertex env (advance_rotation s.mesh.rotation) va,
                e1 := project_vertex env (advance_rotation s.mesh.rotation) vb,
                e2 := project_vertex env (advance_rotation s.mesh.rotation) vc } } := by
  obtain ⟨ts, -, hupd⟩ := update_of_valid env ticks1 s hvalid
  obtain ⟨-, hlen, fv, hfv, hi⟩ := update_triangle_at env ticks1 s _ i f hupd hf
  rw [hfetch] at hfv
  have hfv2 := (Option.some.inj hfv).symm
  subst hfv2
  exact ⟨_, hupd, hlen, hi⟩

/-- C2 as amended, on `mesh_behind` and the near plane at distance `1/10`. -/
theorem update_keeps_face_outside_plane_witness :
    (∀ g ∈ (state_of mesh_behind).mesh.faces,
        valid_face (state_of mesh_behind).mesh.vertices g)
      ∧ (¬ plane_inside (near_plane (1 / 10))
            (transform_vertex (model_env 800 600)
              (advance_rotation (state_of mesh_behind).mesh.rotation) ⟨0, 0, -10⟩)
          ∧ ¬ plane_inside (near_plane (1 / 10))
            (transform_vertex (model_env 800 600)
              (advance_rotation (state_of mesh_behind).mesh.rotation) ⟨1, 0, -10⟩)
          ∧ ¬ plane_inside (near_plane (1 / 10))
            (transform_vertex (model_env 800 600)
              (advance_rotation (state_of mesh_behind).mesh.rotation) ⟨0, 1, -10⟩))
      ∧ ∃ t, update (model_env 800 600) 0 (state_of mesh_behind) = some t
          ∧ t.triangles_to_render.length = (state_of mesh_behind).mesh.faces.length
          ∧ t.triangles_to_render[0]?
              = some { points :=
                  { e0 := project_vertex (model_env 800 600)
                            (advance_rotation (state_of mesh_behind).mesh.rotation) ⟨0, 0, -10⟩,
                    e1 := project_vertex (model_env 800 600)
                            (advance_rotation (state_of mesh_behind).mesh.rotation) ⟨1, 0, -10⟩,
                    e2 := project_vertex (model_env 800 600)
                            (advance_rotation (state_of mesh_behind).mesh.rotation) ⟨0, 1, -10⟩ } } := by
  have hout : ¬ plane_inside (near_plane (1 / 10))
            (transform_vertex (model_env 800 600)
              (advance_rotation (state_of mesh_behind).mesh.rotation) ⟨0, 0, -10⟩)
          ∧ ¬ plane_inside (near_plane (1 / 10))
            (transform_vertex (model_env 800 600)
              (advance_rotation (state_of mesh_behind).mesh.rotation) ⟨1, 0, -10⟩)
          ∧ ¬ plane_inside (near_plane (1 / 10))
            (transform_vertex (model_env 800 600)
              (advance_rotation (state_of mesh_behind).mesh.rotation) ⟨0, 1, -10⟩) :=
    ⟨not_inside_near_plane_of_neg_z _ (by norm_num) _
        (mesh_behind_vertices_negative_z _ (by simp [mesh_behind])),
      not_inside_near_plane_of_neg_z _ (by norm_num) _
        (mesh_behind_vertices_negative_z _ (by simp [mesh_behind])),
      not_inside_near_plane_of_neg_z _ (by norm_num) _
        (mesh_behind_vertices_negative_z _ (by simp [mesh_behind]))⟩
  exact ⟨by decide, hout,
    update_keeps_face_outside_plane (model_env 800 600) 0 (state_of mesh_behind)
      (near_plane (1 / 10)) 0 { a := 1, b := 2, c := 3 } ⟨0, 0, -10⟩ ⟨1, 0, -10⟩ ⟨0, 1, -10⟩
      (by decide) rfl rfl hout⟩

/-! ## C3: the z coordinate handed to the projector -/

/-- C8, as stated, fails for odd window sizes: in a window of 801 by 601 the
origin projects to `(0, 0)` and `update` stores `(400, 300)` for it, which is
not `(0 + 801/2, 0 + 601/2)`. -/
theorem center_offset_odd_window_counterexample :
    perspectiveProject_exact
        (transform_vertex (model_env 801 601) (advance_rotation mesh_origin.rotation) ⟨0, 0, 0⟩)
        = ⟨0, 0⟩
      ∧ update (model_env 801 601) 0 (state_of mesh_origin)
        = some { triangles_to_render :=
                   [{ points := { e0 := ⟨400, 300⟩, e1 := ⟨400, 300⟩, e2 := ⟨400, 300⟩ } }],
                 is_running := true,
                 previous_frame_time := 0,
                 mesh := advance_mesh mesh_origin,
                 color_buffer := some 1920000 }
      ∧ (⟨400, 300⟩ : vec2_t) ≠ ⟨0 + 801 / 2, 0 + 601 / 2⟩ := by
  refine ⟨?_, update_mesh_origin_801_601, ?_⟩
  · simp [perspectiveProject_exact, transform_vertex, model_env, rotate_x_model, rotate_y_model,
      rotate_z_model, mesh_origin]
  · intro h
    have hx := congrArg vec2_t.x h
    norm_num at hx

/-- C8 as amended: the screen point that `update` stores is the projected
point `p` translated by the `int` quotients `window_width / 2` and
`window_height / 2`, that is by half of each size rounded toward zero,
`(w - w mod 2) / 2`; for sizes `2 * a` and `2 * b` this is exactly
`(a, b)`, half the width and half the height. -/
theorem center_offset_is_int_half (env : Env) (rotation v : vec3_t) (a b : Int) :
    project_vertex env rotation v
        = { x := (perspectiveProject_exact (transform_vertex env rotation v)).x
                  + ((env.window_width : ℚ) - ((Int.tmod env.window_width 2 : Int) : ℚ)) / 2,
            y := (perspectiveProject_exact (transform_vertex env rotation v)).y
                  + ((env.window_height : ℚ) - ((Int.tmod env.window_height 2 : Int) : ℚ)) / 2 }
      ∧ project_vertex
          { vec3_rotate_x := env.vec3_rotate_x,
            vec3_rotate_y := env.vec3_rotate_y,
            vec3_rotate_z := env.vec3_rotate_z,
            window_width := 2 * a,
            window_height := 2 * b,
            FRAME_TARGET_TIME := env.FRAME_TARGET_TIME } rotation v
        = { x := (perspectiveProject_exact (transform_vertex env rotation v)).x + (a : ℚ),
            y := (perspectiveProject_exact (transform_vertex env rotation v)).y + (b : ℚ) } := by
  have half : ∀ w : Int, ((Int.tdiv w 2 : Int) : ℚ) = ((w : ℚ) - ((Int.tmod w 2 : Int) : ℚ)) / 2 := by
    intro w
    have h := Int.tmod_add_tdiv w 2
    have hq : ((Int.tmod w 2 : Int) : ℚ) + 2 * ((Int.tdiv w 2 : Int) : ℚ) = (w : ℚ) := by
      exact_mod_cast h
    linarith
  constructor
  · simp [project_vertex, center_offset, half]
  · have ha : Int.tdiv (2 * a) 2 = a := Int.mul_tdiv_cancel_left a (by decide)
    have hb : Int.tdiv (2 * b) 2 = b := Int.mul_tdiv_cancel_left b (by decide)
    simp [project_vertex, center_offset, ha, hb, transform_vertex]

/-! ## C6: allocation failure in setup -/

/-- C6 on the code: with `initialize_window` returning true and `malloc`
returning `NULL`, `main` reports the failure and then runs a full iteration of
the frame loop (`process_input`, `update`, `render`) and is still running;
with `initialize_window` returning false the loop is not entered. -/
theorem main_enters_loop_after_failed_malloc :
    main (model_env 800 600) true none mesh_empty
        [{ event := { type := 0, key_keysym_sym := 0 }, ticks0 := 10, ticks1 := 20 }]
      = ([ Call.fprintf_stderr "Error initializing color buffer.\n",
           Call.SDL_CreateTexture 800 600,
           Call.load_obj_file_data "./assets/train.obj",
           Call.SDL_PollEvent,
           Call.SDL_GetTicks,
           Call.SDL_Delay 23,
           Call.SDL_GetTicks,
           Call.draw_grid_dots,
           Call.array_free_triangles_to_render,
           Call.render_color_buffer,
           Call.clear_color_buffer 0xFF000000,
           Call.SDL_RenderPresent ],
         Ending.still_running)
      ∧ main (model_env 800 600) false none mesh_empty
        [{ event := { type := 0, key_keysym_sym := 0 }, ticks0 := 10, ticks1 := 20 }]
      = ([ Call.fprintf_stderr "Error initializing color buffer.\n",
           Call.SDL_CreateTexture 800 600,
           Call.load_obj_file_data "./assets/train.obj",
           Call.destroy_window,
           Call.free_color_buffer,
           Call.array_free_mesh_faces,
           Call.array_free_mesh_vertices ],
         Ending.returned) := by
  constructor <;> rfl

/-! ## C7: the order of the display calls of render -/

/-- C7, as stated, fails: in the calls of `render` (here on a frame without
triangles) `SDL_RenderPresent` is the last one and comes after
`clear_color_buffer`, not before it. -/
theorem render_presents_after_clear_counterexample :
    render (state_of mesh_empty)
        = [ Call.draw_grid_dots,
            Call.array_free_triangles_to_render,
            Call.render_color_buffer,
            Call.clear_color_buffer 0xFF000000,
            Call.SDL_RenderPresent ]
      ∧ ¬ ((render (state_of mesh_empty)).indexOf Call.SDL_RenderPresent
            < (render (state_of mesh_empty)).indexOf (Call.clear_color_buffer 0xFF000000)) := by
  constructor
  · rfl
  · decide

theorem render_loop_all_draw :
    ∀ (triangles : List triangle_t), ∀ c ∈ render_loop triangles, c.is_draw = true := by
  intro triangles
  induction triangles with
  | nil => intro c hc; simp [render_loop] at hc
  | cons t rest ih =>
    intro c hc
    simp only [render_loop, List.mem_append] at hc
    rcases hc with hc | hc
    · simp only [draw_calls, List.mem_cons, List.mem_singleton, List.mem_nil_iff,
        or_false] at hc
      rcases hc with rfl | rfl | rfl | rfl <;> rfl
    · exact ih c hc

/-- C7 as amended: in every frame `render` first makes its drawing calls,
then frees the triangle array, then hands the buffer to the display with
`render_color_buffer`, then calls `clear_color_buffer(0xFF000000)`, and only
then `SDL_RenderPresent`; `clear_color_buffer` is called exactly once. -/
theorem render_call_order (s : State) :
    ∃ draws : List Call,
      render s = draws ++ [ Call.array_free_triangles_to_render,
                            Call.render_color_buffer,
                            Call.clear_color_buffer 0xFF000000,
                            Call.SDL_RenderPresent ]
      ∧ (∀ c ∈ draws, c.is_draw = true)
      ∧ (render s).countP Call.is_clear = 1 := by
  have hdraw : ∀ c ∈ [Call.draw_grid_dots] ++ render_loop s.triangles_to_render,
      c.is_draw = true := by
    intro c hc
    simp only [List.mem_append, List.mem_singleton] at hc
    rcases hc with rfl | hc
    · rfl
    · exact render_loop_all_draw _ c hc
  refine ⟨[Call.draw_grid_dots] ++ render_loop s.triangles_to_render, rfl, hdraw, ?_⟩
  have hnone : ([Call.draw_grid_dots] ++ render_loop s.triangles_to_render).countP
      Call.is_clear = 0 := by
    rw [List.countP_eq_zero]
    intro c hc
    have := hdraw c hc
    cases c <;> simp [Call.is_draw, Call.is_clear] at this ⊢
  unfold render
  rw [List.countP_append, hnone]
  rfl

end CRenderer
